import Mathlib

/-!
Verification of the dashboard scene page state manager and the
error-message extraction utility of the Grafana frontend.

The implementation files (`DashboardScenePageStateManager.ts`,
`core/utils/errors.ts`) are not part of the provided sources; only their
test suites are.  The definitions below are therefore modelled from the
specification (sections 3, 4.1, 6 and 7), guided by the expectations
recorded in the test files
`public/app/features/dashboard-scene/pages/DashboardScenePageStateManager.test.ts`
and `public/app/core/utils/errors.test.ts`.

Modelling conventions:
* JavaScript timestamps are natural numbers (milliseconds).
* `undefined` fields become `Option` values (`none` = `undefined`).
* The async suspension point of `loadDashboard` is modelled by splitting
  the operation into a synchronous prefix (`loadDashboardStart`, the
  state-clearing write that happens before the fetch suspends) and a
  resolution step (`loadDashboardResolve`); `loadDashboard` is their
  composition.
* Backend calls are recorded explicitly: operations return the list of
  backend fetch invocations they perform, so that "issues exactly one
  backend call" is a statement about that list.
* JavaScript object identity (the scene held in the manager state is the
  very object stored in the scene cache) is modelled by value equality:
  a mutation of the live scene updates every cache entry holding an
  equal scene value.
-/

/-! ## JavaScript-like error values and `getMessageFromError` -/

/-- A JSON-like JavaScript value, used for the fields of plain error
objects passed to `getMessageFromError`. -/
inductive JsonVal where
  | str (s : String)
  | num (n : Int)
  | obj (fields : List (String × JsonVal))

/-- An error value as seen by `getMessageFromError`: a plain string, a
native `Error` object (carrying its `message`), or a plain object with
arbitrary fields (e.g. a fetch error with `data` / `statusText`). -/
inductive ErrValue where
  | str (s : String)
  | nativeError (message : String)
  | obj (fields : List (String × JsonVal))

/-- Field lookup in a JavaScript object literal (first binding wins). -/
def fieldLookup (k : String) : List (String × JsonVal) → Option JsonVal
  | [] => none
  | (k2, v) :: rest => if k = k2 then some v else fieldLookup k rest

/-- `JSON.stringify` escaping of a single character inside a string
literal (quotes and backslashes). -/
def jsonEscapeChar (c : Char) : String :=
  if c = '"' then "\\\"" else if c = '\\' then "\\\\" else String.singleton c

/-- `JSON.stringify` escaping of a string body. -/
def jsonEscape (s : String) : String :=
  String.join (s.data.map jsonEscapeChar)

mutual

/-- `JSON.stringify` of a JSON-like value. -/
def JsonVal.stringify : JsonVal → String
  | .str s => "\"" ++ jsonEscape s ++ "\""
  | .num n => toString n
  | .obj fields => "\x7b" ++ JsonVal.stringifyPairs fields ++ "\x7d"

/-- `JSON.stringify` of the comma-separated field list of an object. -/
def JsonVal.stringifyPairs : List (String × JsonVal) → String
  | [] => ""
  | (k, v) :: rest =>
      "\"" ++ jsonEscape k ++ "\":" ++ JsonVal.stringify v ++
        (if rest.isEmpty then "" else ",") ++ JsonVal.stringifyPairs rest

end

/-- `JSON.stringify` of a whole plain error object. -/
def ErrValue.stringify : ErrValue → String
  | .str s => (JsonVal.str s).stringify
  | .nativeError _ => "\x7b\x7d"
  | .obj fields => (JsonVal.obj fields).stringify

/-- Modelled from the spec: the `error.data.message` access — `some m`
iff the error is an object whose `data` field is an object whose
`message` field is the string `m`. -/
def errDataMessage : ErrValue → Option String
  | .obj fields =>
      match fieldLookup "data" fields with
      | some (.obj dataFields) =>
          match fieldLookup "message" dataFields with
          | some (.str m) => some m
          | _ => none
      | _ => none
  | _ => none

/-- Modelled from the spec: the `error.statusText` access — `some s` iff
the error is an object whose `statusText` field is the string `s`. -/
def errStatusText : ErrValue → Option String
  | .obj fields =>
      match fieldLookup "statusText" fields with
      | some (.str s) => some s
      | _ => none
  | _ => none

/-- Modelled from the spec: `getMessageFromError` (implementation file
`public/app/core/utils/errors.ts` is not in the provided sources).
Priority rule of section 7: use `error.data.message` if present, else
`error.statusText` if present, else `error.message` if the error is a
native error object, else the raw string if the error is already a
string, else a JSON-stringified fallback of the whole error object. -/
def getMessageFromError (err : ErrValue) : String :=
  match errDataMessage err with
  | some m => m
  | none =>
      match errStatusText err with
      | some s => s
      | none =>
          match err with
          | .nativeError m => m
          | .str s => s
          | .obj fields => (JsonVal.obj fields).stringify


/-! ## Dashboard DTOs (two coexisting schema shapes) -/

/-- Modelled from the spec: the legacy "v1" flat dashboard payload
(`{ dashboard: \x7buid, title, version, ...\x7d, meta: ... }`). -/
structure DashboardModel where
  uid : String
  title : String := ""
  version : Option Nat := none
deriving DecidableEq

/-- Modelled from the spec: the legacy dashboard `meta` block. -/
structure DashboardMeta where
  isNew : Bool := false
deriving DecidableEq

/-- Modelled from the spec: the `metadata` block of the newer "resource"
shaped dashboard payload, carrying `name` and `resourceVersion`.
JavaScript stores `resourceVersion` as a decimal string; the manager
compares it numerically, so it is modelled as `Option Nat`. -/
structure ResourceMetadata where
  name : String
  resourceVersion : Option Nat := none
deriving DecidableEq

/-- Modelled from the spec: the `spec` block of the resource-shaped
dashboard payload. -/
structure ResourceSpec where
  title : String := ""
  editable : Bool := true
deriving DecidableEq

/-- Modelled from the spec: a dashboard DTO, in one of the two
coexisting schema shapes of section 6: the legacy "v1" flat shape or
the newer "resource" shape (`{ metadata, spec, access }`). -/
inductive DashboardDTO where
  | v1 (dashboard : DashboardModel) (meta : DashboardMeta)
  | resource (metadata : ResourceMetadata) (spec : ResourceSpec)
deriving DecidableEq

/-- Modelled from the spec (section 9): the canonical record produced by
normalizing either DTO shape before any cache/version logic runs. -/
structure NormalizedDashboard where
  uid : String
  version : Option Nat
  title : String
deriving DecidableEq

/-- Modelled from the spec: shape normalization — legacy DTOs expose
`dashboard.uid` / `dashboard.version`, resource DTOs expose
`metadata.name` / `metadata.resourceVersion`. -/
def DashboardDTO.normalize : DashboardDTO → NormalizedDashboard
  | .v1 d _ => ⟨d.uid, d.version, d.title⟩
  | .resource m s => ⟨m.name, m.resourceVersion, s.title⟩

/-- Modelled from the spec: `meta.isNew` of a DTO (`false` for the
resource shape, which has no such flag). -/
def DashboardDTO.isNew : DashboardDTO → Bool
  | .v1 _ m => m.isNew
  | .resource _ _ => false

/-! ## Scenes -/

/-- Modelled from the spec: the `meta` sub-state of a live scene. -/
structure SceneMeta where
  isNew : Bool := false
deriving DecidableEq

/-- Modelled from the spec: the observable state of a live
`DashboardScene` instance (`isEditing = none` models the JavaScript
`undefined` of a scene that never entered edit mode). -/
structure DashboardSceneState where
  uid : String := ""
  title : String := ""
  version : Option Nat := none
  isEditing : Option Bool := none
  isDirty : Bool := false
  meta : SceneMeta := {}
deriving DecidableEq

/-- Modelled from the spec: a live scene instance; it owns mutable
nested state (edit-mode flag, version, title). -/
structure DashboardScene where
  state : DashboardSceneState
deriving DecidableEq

/-- Modelled from the spec: the scene-object constructor
`DashboardScene.fromDTO(dto)` — builds a fresh scene from a normalized
DTO; a fresh scene has `isEditing = undefined` and `isDirty = false`. -/
def DashboardScene.fromDTO (dto : DashboardDTO) : DashboardScene :=
  let n := dto.normalize
  ⟨{ uid := n.uid, title := n.title, version := n.version,
     meta := { isNew := dto.isNew } }⟩

/-- Modelled from the spec: the scene produced for the `New` route — an
empty dashboard titled "New dashboard" with `meta.isNew = true`. -/
def newDashboardScene : DashboardScene :=
  ⟨{ title := "New dashboard", meta := { isNew := true } }⟩

/-! ## Routes and the backend fetch contract -/

/-- The route context enum of the spec:
`{Normal, New, Home, Embedded, Public}`. -/
inductive DashboardRoutes where
  | Normal | New | Home | Embedded | Public
deriving DecidableEq

/-- One invocation of the backend dashboard-fetch API, recording the
arguments `(storeKind, route-specific-slug, uid, queryParams)` of the
consumed contract of section 6. -/
structure FetchCall where
  storeKind : String
  slug : String
  uid : String
  queryParams : Option String
deriving DecidableEq

/-- The backend's possible answers to a dashboard fetch by uid. -/
inductive DashResponse where
  | ok (dto : DashboardDTO)
  | missing
  | failure (err : ErrValue)

/-- The backend's possible answers to the home-dashboard request: a
redirect response, a dashboard payload, or a failure. -/
inductive HomeResponse where
  | redirect (uri : String)
  | ok (dto : DashboardDTO)
  | failure (err : ErrValue)

/-- The backend dashboard-fetch API (an external collaborator): fetch by
uid, plus the separate home-dashboard endpoint. -/
structure Backend where
  fetchDash : String → DashResponse
  home : HomeResponse

/-! ## The dashboard scene page state manager -/

/-- Modelled from the spec: `DASHBOARD_CACHE_TTL`, the fixed validity
window of a DTO cache entry, in milliseconds ("within 2s"). -/
def DASHBOARD_CACHE_TTL : Nat := 2000

/-- Modelled from the spec: a DTO cache entry
`{ dto, fetchedAt : timestamp }`. -/
structure CacheEntry where
  dto : DashboardDTO
  fetchedAt : Nat
deriving DecidableEq

/-- Modelled from the spec: the manager's observable state
(`dashboard`, `isLoading`, `loadError`); all fields start out
`undefined` / `false`. -/
structure ManagerState where
  dashboard : Option DashboardScene := none
  isLoading : Bool := false
  loadError : Option String := none
deriving DecidableEq

/-- Modelled from the spec: `DashboardScenePageStateManager`
(implementation file
`public/app/features/dashboard-scene/pages/DashboardScenePageStateManager.ts`
is not in the provided sources): observable state plus two mapping
structures, identifier → DTO cache entry and identifier → scene
instance. -/
structure DashboardScenePageStateManager where
  state : ManagerState := {}
  dtoCache : List (String × CacheEntry) := []
  sceneCache : List (String × DashboardScene) := []

/-- A freshly constructed manager (`new DashboardScenePageStateManager(\x7b\x7d)`). -/
def initialManager : DashboardScenePageStateManager := {}

/-- Lookup in an association list keyed by identifier; the most recently
inserted binding wins, like assignment to a JavaScript object key. -/
def lookupEntry {α : Type} (k : String) : List (String × α) → Option α
  | [] => none
  | (k2, v) :: rest => if k = k2 then some v else lookupEntry k rest

/-- The result of resolving a DTO for a load: the payload, a
"not found" report, or a transport failure. -/
inductive FetchResult where
  | ok (dto : DashboardDTO)
  | notFound
  | failure (err : ErrValue)

/-- Modelled from the spec: the backend branch of `fetchDashboard` for
the `Normal` route — calls the backend fetch API with store kind `db`,
an empty slug, the requested uid and no query parameters, stores a
successful result in the DTO cache with a fresh timestamp, and reports
a missing dashboard as `notFound`. -/
def fetchFromBackend (now : Nat) (backend : Backend) (uid : String)
    (mgr : DashboardScenePageStateManager) :
    DashboardScenePageStateManager × List FetchCall × FetchResult :=
  let call : FetchCall := ⟨"db", "", uid, none⟩
  match backend.fetchDash uid with
  | .ok dto =>
      ({ mgr with dtoCache := (uid, ⟨dto, now⟩) :: mgr.dtoCache }, [call], .ok dto)
  | .missing => (mgr, [call], .notFound)
  | .failure e => (mgr, [call], .failure e)

/-- Modelled from the spec: `fetchDashboard(identifier, routeContext)`
for the `Normal` route — if a DTO cache entry exists for the identifier
and `now - fetchedAt < CACHE_TTL`, return the cached DTO without a
backend call; otherwise call the backend fetch API and cache the
result. -/
def fetchDashboard (now : Nat) (backend : Backend) (uid : String)
    (mgr : DashboardScenePageStateManager) :
    DashboardScenePageStateManager × List FetchCall × FetchResult :=
  match lookupEntry uid mgr.dtoCache with
  | some entry =>
      if now - entry.fetchedAt < DASHBOARD_CACHE_TTL then (mgr, [], .ok entry.dto)
      else fetchFromBackend now backend uid mgr
  | none => fetchFromBackend now backend uid mgr

/-- Modelled from the spec: the tie-break rule of section 4.1 — the
incoming DTO's version has advanced past the cached scene's version
exactly when both are present and the incoming one is strictly
numerically greater; an equal or missing incoming version means the
existing scene is reused. -/
def versionAdvanced : Option Nat → Option Nat → Bool
  | some incoming, some cached => cached < incoming
  | _, _ => false

/-- Modelled from the spec: scene resolution for a fetched DTO — if a
previously built scene exists for this identifier and the DTO's
version has not advanced (strict numeric greater-than), reuse the
existing scene, preserving its live edit state; otherwise discard the
stale scene and build a fresh one from the DTO. -/
def sceneForDTO (uid : String) (dto : DashboardDTO)
    (mgr : DashboardScenePageStateManager) : DashboardScene :=
  match lookupEntry uid mgr.sceneCache with
  | some cached =>
      if versionAdvanced dto.normalize.version cached.state.version
      then DashboardScene.fromDTO dto
      else cached
  | none => DashboardScene.fromDTO dto

/-- Modelled from the spec: the synchronous prefix of `loadDashboard` —
before suspending at the fetch boundary the manager sets
`isLoading = true` and clears the prior `dashboard` state (an
observable side effect). -/
def loadDashboardStart (mgr : DashboardScenePageStateManager) :
    DashboardScenePageStateManager :=
  { mgr with state := { dashboard := none, isLoading := true, loadError := none } }

/-- Modelled from the spec: the resolution step of `loadDashboard`,
running after the synchronous state clear.
* `New` route: always a fresh "New dashboard" scene, never written to
  either cache.
* `Home` route: a redirect response is not a failure (`dashboard` and
  `loadError` stay undefined); a payload builds a scene; a failure
  surfaces the extracted error message.
* other routes: resolve the DTO via the `fetchDashboard` logic, reuse
  or rebuild the scene per the version tie-break rule, cache the scene
  under a non-empty identifier; "not found" surfaces as
  `loadError = "Dashboard not found"`, failures surface the extracted
  message; in both error cases `dashboard` is left undefined. -/
def loadDashboardResolve (now : Nat) (backend : Backend) (uid : String)
    (route : DashboardRoutes) (mgr : DashboardScenePageStateManager) :
    DashboardScenePageStateManager × List FetchCall :=
  match route with
  | .New =>
      ({ mgr with
          state := { dashboard := some newDashboardScene, isLoading := false,
                     loadError := none } }, [])
  | .Home =>
      match backend.home with
      | .redirect _ =>
          ({ mgr with
              state := { dashboard := none, isLoading := false, loadError := none } }, [])
      | .ok dto =>
          ({ mgr with
              state := { dashboard := some (DashboardScene.fromDTO dto),
                         isLoading := false, loadError := none } }, [])
      | .failure e =>
          ({ mgr with
              state := { dashboard := none, isLoading := false,
                         loadError := some (getMessageFromError e) } }, [])
  | _ =>
      match fetchDashboard now backend uid mgr with
      | (mgr1, calls, .ok dto) =>
          let scene := sceneForDTO uid dto mgr1
          ({ mgr1 with
              state := { dashboard := some scene, isLoading := false,
                         loadError := none },
              sceneCache :=
                if uid = "" then mgr1.sceneCache
                else (uid, scene) :: mgr1.sceneCache }, calls)
      | (mgr1, calls, .notFound) =>
          ({ mgr1 with
              state := { dashboard := none, isLoading := false,
                         loadError := some "Dashboard not found" } }, calls)
      | (mgr1, calls, .failure e) =>
          ({ mgr1 with
              state := { dashboard := none, isLoading := false,
                         loadError := some (getMessageFromError e) } }, calls)

/-- Modelled from the spec: `loadDashboard(identifier, routeContext)` —
the synchronous state clear followed by the resolution step; returns
the updated manager and the backend fetch calls performed. -/
def loadDashboard (now : Nat) (backend : Backend) (uid : String)
    (route : DashboardRoutes) (mgr : DashboardScenePageStateManager) :
    DashboardScenePageStateManager × List FetchCall :=
  loadDashboardResolve now backend uid route (loadDashboardStart mgr)

/-- Modelled from the spec: `clearState()` — resets the observable state
to its initial values WITHOUT evicting the DTO or scene caches. -/
def clearState (mgr : DashboardScenePageStateManager) :
    DashboardScenePageStateManager :=
  { mgr with state := {} }

/-- Modelled from the spec: `getDashboardFromCache(identifier)` — pure
cache lookup, no network, no side effects; `none` on miss or on
expired TTL. -/
def getDashboardFromCache (now : Nat) (uid : String)
    (mgr : DashboardScenePageStateManager) : Option DashboardDTO :=
  match lookupEntry uid mgr.dtoCache with
  | some entry =>
      if now - entry.fetchedAt < DASHBOARD_CACHE_TTL then some entry.dto else none
  | none => none

/-- Modelled from the spec: `setDashboardCache(identifier, dto)` —
direct cache injection with a fresh timestamp, making
`getDashboardFromCache` return the provided DTO. -/
def setDashboardCache (now : Nat) (uid : String) (dto : DashboardDTO)
    (mgr : DashboardScenePageStateManager) : DashboardScenePageStateManager :=
  { mgr with dtoCache := (uid, ⟨dto, now⟩) :: mgr.dtoCache }

/-- Modelled from the spec: `scene.onEnterEditMode()` on the manager's
current dashboard — sets the live scene's `isEditing` to `true`.  The
scene held in the manager state is the very object stored in the scene
cache, so the mutation is visible through every cache entry holding
that scene (object identity modelled by value equality). -/
def onEnterEditMode (mgr : DashboardScenePageStateManager) :
    DashboardScenePageStateManager :=
  match mgr.state.dashboard with
  | none => mgr
  | some scene =>
      let scene2 : DashboardScene := ⟨{ scene.state with isEditing := some true }⟩
      { mgr with
          state := { mgr.state with dashboard := some scene2 },
          sceneCache :=
            mgr.sceneCache.map fun p => if p.2 = scene then (p.1, scene2) else p }

/-- Modelled from the spec: `scene.setState(\x7b title \x7d)` on the
manager's current dashboard — mutates the live scene's title, again
visible through every cache entry aliasing that scene. -/
def setSceneTitle (t : String) (mgr : DashboardScenePageStateManager) :
    DashboardScenePageStateManager :=
  match mgr.state.dashboard with
  | none => mgr
  | some scene =>
      let scene2 : DashboardScene := ⟨{ scene.state with title := t }⟩
      { mgr with
          state := { mgr.state with dashboard := some scene2 },
          sceneCache :=
            mgr.sceneCache.map fun p => if p.2 = scene then (p.1, scene2) else p }

/-! ## Concrete fixtures (mirroring the test suite's payloads) -/

/-- A resource-shaped DTO with `metadata.name = "fake-dash"` and
`resourceVersion = 10`, as in the caching test. -/
def sampleResourceDTO : DashboardDTO :=
  .resource { name := "fake-dash", resourceVersion := some 10 }
    { title := "t", editable := true }

/-- A legacy v1 DTO with `version = 11`, as injected by
`setDashboardCache` in the caching test. -/
def sampleV1DTO : DashboardDTO :=
  .v1 { uid := "fake-dash", title := "new version", version := some 11 } {}

/-- A resource-shaped DTO with `resourceVersion = 11`. -/
def sampleResourceDTO11 : DashboardDTO :=
  .resource { name := "fake-dash", resourceVersion := some 11 }
    { title := "t2", editable := true }

/-- A backend that serves `sampleResourceDTO` for every uid and answers
the home request with a redirect. -/
def sampleBackend : Backend :=
  { fetchDash := fun _ => .ok sampleResourceDTO, home := .redirect "/d/asd" }

/-- A backend on which every dashboard is missing. -/
def missingBackend : Backend :=
  { fetchDash := fun _ => .missing, home := .redirect "" }

/-- A legacy v1 DTO carrying no version at all. -/
def missingVersionDTO : DashboardDTO :=
  .v1 { uid := "fake-dash", title := "x" } {}

/-! ## Theorems -/

/-- C1: for every identifier, after a successful load, entering edit
mode, `clearState()`, and a second `loadDashboard` whose cached DTO's
version has not strictly numerically advanced past the cached scene's
version (equal or missing incoming version), the existing scene
instance is reused and its live edit state is preserved: the resulting
scene still has `isEditing = true`. -/
theorem loadDashboard_preserves_edit_state
    (uid : String) (dto dto2 : DashboardDTO) (backend : Backend) (t : Nat)
    (huid : ¬ uid = "")
    (hb : backend.fetchDash uid = .ok dto)
    (hver : versionAdvanced dto2.normalize.version dto.normalize.version = false) :
    ∃ scene,
      (loadDashboard t backend uid .Normal
          (setDashboardCache t uid dto2
            (clearState (onEnterEditMode
              (loadDashboard t backend uid .Normal initialManager).1)))).1.state.dashboard
        = some scene ∧
      scene.state.isEditing = some true := by
  simp [loadDashboard, loadDashboardStart, loadDashboardResolve, fetchDashboard,
    fetchFromBackend, initialManager, lookupEntry, clearState, setDashboardCache,
    onEnterEditMode, sceneForDTO, DashboardScene.fromDTO, huid, hb, hver,
    DASHBOARD_CACHE_TTL]

/-- Witness for C1: the concrete scenario of the caching test — a
resource-shaped DTO with `resourceVersion = 10` re-served unchanged,
and the same scenario with a version-less re-injected DTO; in both the
reloaded scene still has `isEditing = true`. -/
theorem loadDashboard_preserves_edit_state_witness :
    (¬ "fake-dash" = "" ∧
      sampleBackend.fetchDash "fake-dash" = .ok sampleResourceDTO ∧
      versionAdvanced sampleResourceDTO.normalize.version
        sampleResourceDTO.normalize.version = false ∧
      ∃ scene,
        (loadDashboard 0 sampleBackend "fake-dash" .Normal
            (setDashboardCache 0 "fake-dash" sampleResourceDTO
              (clearState (onEnterEditMode
                (loadDashboard 0 sampleBackend "fake-dash" .Normal
                  initialManager).1)))).1.state.dashboard = some scene ∧
        scene.state.isEditing = some true) ∧
    (versionAdvanced missingVersionDTO.normalize.version
        sampleResourceDTO.normalize.version = false ∧
      ∃ scene,
        (loadDashboard 0 sampleBackend "fake-dash" .Normal
            (setDashboardCache 0 "fake-dash" missingVersionDTO
              (clearState (onEnterEditMode
                (loadDashboard 0 sampleBackend "fake-dash" .Normal
                  initialManager).1)))).1.state.dashboard = some scene ∧
        scene.state.isEditing = some true) :=
  ⟨⟨by decide, rfl, by decide,
    loadDashboard_preserves_edit_state "fake-dash" sampleResourceDTO sampleResourceDTO
      sampleBackend 0 (by decide) rfl (by decide)⟩,
   ⟨by decide,
    loadDashboard_preserves_edit_state "fake-dash" sampleResourceDTO missingVersionDTO
      sampleBackend 0 (by decide) rfl (by decide)⟩⟩

/-- C2: for every identifier, two `loadDashboard` calls within
`DASHBOARD_CACHE_TTL` of a successful fetch issue exactly one backend
fetch call in total, and a `fetchDashboard` call after the TTL has
elapsed issues a second backend fetch call. -/
theorem dashboard_cache_ttl_call_counts
    (uid : String) (dto : DashboardDTO) (backend : Backend) (t d e : Nat)
    (hb : backend.fetchDash uid = .ok dto)
    (hd : d < DASHBOARD_CACHE_TTL) (he : DASHBOARD_CACHE_TTL ≤ e) :
    ((loadDashboard t backend uid .Normal initialManager).2.length +
      (loadDashboard (t + d) backend uid .Normal
        (loadDashboard t backend uid .Normal initialManager).1).2.length = 1) ∧
    ((fetchDashboard t backend uid initialManager).2.1.length = 1) ∧
    ((fetchDashboard (t + e) backend uid
        (fetchDashboard t backend uid initialManager).1).2.1.length = 1) := by
  refine ⟨?_, ?_, ?_⟩ <;>
    simp [loadDashboard, loadDashboardStart, loadDashboardResolve, fetchDashboard,
      fetchFromBackend, initialManager, lookupEntry, hb, hd, Nat.not_lt.mpr he,
      Nat.add_sub_cancel_left]

/-- Witness for C2: a second load 1000 ms after the first issues no new
backend call (one call in total); a fetch 2000 ms after the first
issues a second call. -/
theorem dashboard_cache_ttl_call_counts_witness :
    sampleBackend.fetchDash "fake-dash" = .ok sampleResourceDTO ∧
    1000 < DASHBOARD_CACHE_TTL ∧ DASHBOARD_CACHE_TTL ≤ 2000 ∧
    (((loadDashboard 0 sampleBackend "fake-dash" .Normal initialManager).2.length +
      (loadDashboard (0 + 1000) sampleBackend "fake-dash" .Normal
        (loadDashboard 0 sampleBackend "fake-dash" .Normal initialManager).1).2.length
        = 1) ∧
    ((fetchDashboard 0 sampleBackend "fake-dash" initialManager).2.1.length = 1) ∧
    ((fetchDashboard (0 + 2000) sampleBackend "fake-dash"
        (fetchDashboard 0 sampleBackend "fake-dash" initialManager).1).2.1.length = 1)) :=
  ⟨rfl, by decide, by decide,
   dashboard_cache_ttl_call_counts "fake-dash" sampleResourceDTO sampleBackend 0 1000 2000
     rfl (by decide) (by decide)⟩

/-- C3: for every identifier with an existing cached scene, if the
cached DTO is replaced via `setDashboardCache` by one whose
version/resourceVersion is strictly numerically greater, the next
`loadDashboard` discards the stale scene and builds a fresh one:
`isEditing = undefined` and `version` equal to the new DTO's version;
the incoming DTO may be of either schema shape. -/
theorem loadDashboard_rebuilds_on_newer_version
    (uid : String) (dto dto2 : DashboardDTO) (backend : Backend) (t : Nat)
    (huid : ¬ uid = "")
    (hb : backend.fetchDash uid = .ok dto)
    (hver : versionAdvanced dto2.normalize.version dto.normalize.version = true) :
    ∃ scene,
      (loadDashboard t backend uid .Normal
          (setDashboardCache t uid dto2
            (clearState (onEnterEditMode
              (loadDashboard t backend uid .Normal initialManager).1)))).1.state.dashboard
        = some scene ∧
      scene.state.isEditing = none ∧
      scene.state.version = dto2.normalize.version := by
  simp [loadDashboard, loadDashboardStart, loadDashboardResolve, fetchDashboard,
    fetchFromBackend, initialManager, lookupEntry, clearState, setDashboardCache,
    onEnterEditMode, sceneForDTO, DashboardScene.fromDTO, huid, hb, hver,
    DASHBOARD_CACHE_TTL]

/-- Witness for C3: the cached scene (built from a resource DTO with
`resourceVersion = 10`) is discarded both for a legacy v1 DTO with
`version = 11` and for a resource DTO with `resourceVersion = 11`; the
fresh scene has `isEditing = undefined` and `version = 11`. -/
theorem loadDashboard_rebuilds_on_newer_version_witness :
    (versionAdvanced sampleV1DTO.normalize.version
        sampleResourceDTO.normalize.version = true ∧
      ∃ scene,
        (loadDashboard 0 sampleBackend "fake-dash" .Normal
            (setDashboardCache 0 "fake-dash" sampleV1DTO
              (clearState (onEnterEditMode
                (loadDashboard 0 sampleBackend "fake-dash" .Normal
                  initialManager).1)))).1.state.dashboard = some scene ∧
        scene.state.isEditing = none ∧
        scene.state.version = sampleV1DTO.normalize.version) ∧
    (versionAdvanced sampleResourceDTO11.normalize.version
        sampleResourceDTO.normalize.version = true ∧
      ∃ scene,
        (loadDashboard 0 sampleBackend "fake-dash" .Normal
            (setDashboardCache 0 "fake-dash" sampleResourceDTO11
              (clearState (onEnterEditMode
                (loadDashboard 0 sampleBackend "fake-dash" .Normal
                  initialManager).1)))).1.state.dashboard = some scene ∧
        scene.state.isEditing = none ∧
        scene.state.version = sampleResourceDTO11.normalize.version) :=
  ⟨⟨by decide,
    loadDashboard_rebuilds_on_newer_version "fake-dash" sampleResourceDTO sampleV1DTO
      sampleBackend 0 (by decide) rfl (by decide)⟩,
   ⟨by decide,
    loadDashboard_rebuilds_on_newer_version "fake-dash" sampleResourceDTO
      sampleResourceDTO11 sampleBackend 0 (by decide) rfl (by decide)⟩⟩

/-- C4: every `loadDashboard` call synchronously clears the prior
observable state before suspending at the fetch boundary: after a
successful load has set `dashboard`, the synchronous prefix of the next
call leaves `isLoading = true` and `dashboard = undefined`, and
`loadDashboard` is exactly that synchronous clear followed by the
resolution step. -/
theorem loadDashboard_clears_state_synchronously
    (t1 now : Nat) (backend : Backend) (uid1 uid2 : String)
    (dto : DashboardDTO) (route : DashboardRoutes)
    (mgr : DashboardScenePageStateManager)
    (hb : backend.fetchDash uid1 = .ok dto) :
    ((loadDashboard t1 backend uid1 .Normal mgr).1.state.dashboard ≠ none) ∧
    ((loadDashboardStart (loadDashboard t1 backend uid1 .Normal mgr).1).state.isLoading
        = true) ∧
    ((loadDashboardStart (loadDashboard t1 backend uid1 .Normal mgr).1).state.dashboard
        = none) ∧
    (loadDashboard now backend uid2 route (loadDashboard t1 backend uid1 .Normal mgr).1 =
      loadDashboardResolve now backend uid2 route
        (loadDashboardStart (loadDashboard t1 backend uid1 .Normal mgr).1)) := by
  refine ⟨?_, rfl, rfl, rfl⟩
  rcases h : lookupEntry uid1 mgr.dtoCache with _ | entry
  · simp [loadDashboard, loadDashboardStart, loadDashboardResolve, fetchDashboard,
      fetchFromBackend, h, hb]
  · by_cases httl : t1 - entry.fetchedAt < DASHBOARD_CACHE_TTL <;>
      simp [loadDashboard, loadDashboardStart, loadDashboardResolve, fetchDashboard,
        fetchFromBackend, h, hb, httl]

/-- Witness for C4: after loading `u1` (which sets `dashboard`), the
synchronous prefix of a second load shows `isLoading = true` and
`dashboard = undefined`, and the full second call factors through that
prefix. -/
theorem loadDashboard_clears_state_synchronously_witness :
    sampleBackend.fetchDash "u1" = .ok sampleResourceDTO ∧
    (((loadDashboard 0 sampleBackend "u1" .Normal initialManager).1.state.dashboard
        ≠ none) ∧
    ((loadDashboardStart
        (loadDashboard 0 sampleBackend "u1" .Normal initialManager).1).state.isLoading
        = true) ∧
    ((loadDashboardStart
        (loadDashboard 0 sampleBackend "u1" .Normal initialManager).1).state.dashboard
        = none) ∧
    (loadDashboard 1 sampleBackend "u2" .Normal
        (loadDashboard 0 sampleBackend "u1" .Normal initialManager).1 =
      loadDashboardResolve 1 sampleBackend "u2" .Normal
        (loadDashboardStart
          (loadDashboard 0 sampleBackend "u1" .Normal initialManager).1))) :=
  ⟨rfl, loadDashboard_clears_state_synchronously 0 1 sampleBackend "u1" "u2"
    sampleResourceDTO .Normal initialManager rfl⟩

/-- C5: for every identifier the backend reports as non-existent,
`loadDashboard` converts the error into state (no exception escapes the
model, which is a total function): `dashboard = undefined`,
`isLoading = false`, `loadError = "Dashboard not found"`. -/
theorem loadDashboard_missing_dashboard
    (uid : String) (backend : Backend) (t : Nat)
    (hb : backend.fetchDash uid = .missing) :
    ((loadDashboard t backend uid .Normal initialManager).1.state.dashboard = none) ∧
    ((loadDashboard t backend uid .Normal initialManager).1.state.isLoading = false) ∧
    ((loadDashboard t backend uid .Normal initialManager).1.state.loadError =
      some "Dashboard not found") := by
  simp [loadDashboard, loadDashboardStart, loadDashboardResolve, fetchDashboard,
    fetchFromBackend, initialManager, lookupEntry, hb]

/-- Witness for C5: loading `fake-dash` against a backend on which it is
missing yields the "Dashboard not found" error state. -/
theorem loadDashboard_missing_dashboard_witness :
    missingBackend.fetchDash "fake-dash" = .missing ∧
    (((loadDashboard 0 missingBackend "fake-dash" .Normal
        initialManager).1.state.dashboard = none) ∧
    ((loadDashboard 0 missingBackend "fake-dash" .Normal
        initialManager).1.state.isLoading = false) ∧
    ((loadDashboard 0 missingBackend "fake-dash" .Normal
        initialManager).1.state.loadError = some "Dashboard not found")) :=
  ⟨rfl, loadDashboard_missing_dashboard "fake-dash" missingBackend 0 rfl⟩

/-- C6: the error-message extraction follows the fixed priority rule:
`error.data.message`, else `error.statusText`, else the native error's
`message`, else the string itself, else the JSON stringification of the
whole object — including the five concrete cases of the test suite. -/
theorem getMessageFromError_priority :
    (∀ s, getMessageFromError (.str s) = s) ∧
    (∀ m, getMessageFromError (.nativeError m) = m) ∧
    getMessageFromError (.obj [("data", .obj [("message", .str "m")])]) = "m" ∧
    getMessageFromError (.obj [("statusText", .str "s"), ("data", .str "x")]) = "s" ∧
    getMessageFromError (.str "e") = "e" ∧
    getMessageFromError (.obj [("customError", .str "e")]) =
      "\x7b\"customError\":\"e\"\x7d" := by
  refine ⟨fun s => rfl, fun m => rfl, ?_, ?_, ?_, ?_⟩ <;> decide

/-- C7: a `New`-route load always yields a fresh scene with
`meta.isNew = true`, `isEditing = undefined` and `isDirty = false`,
regardless of prior state; neither cache is written; and after mutating
the returned scene's title a second `New`-route load is back to
"New dashboard". -/
theorem loadDashboard_new_route_fresh (t t2 : Nat) (backend : Backend)
    (mgr : DashboardScenePageStateManager) :
    (∃ scene,
      (loadDashboard t backend "" .New mgr).1.state.dashboard = some scene ∧
      scene.state.meta.isNew = true ∧ scene.state.isEditing = none ∧
      scene.state.isDirty = false) ∧
    ((loadDashboard t backend "" .New mgr).1.dtoCache = mgr.dtoCache) ∧
    ((loadDashboard t backend "" .New mgr).1.sceneCache = mgr.sceneCache) ∧
    (∃ scene2,
      (loadDashboard t2 backend "" .New
          (setSceneTitle "Changed" (loadDashboard t backend "" .New mgr).1)).1.state.dashboard
        = some scene2 ∧
      scene2.state.title = "New dashboard") :=
  ⟨⟨newDashboardScene, rfl, rfl, rfl, rfl⟩, rfl, rfl, ⟨newDashboardScene, rfl, rfl⟩⟩

/-- C8: a `Home`-route load whose backend answers with a redirect is not
a failure: afterwards `dashboard` and `loadError` are both undefined. -/
theorem loadDashboard_home_redirect (t : Nat) (backend : Backend) (uri : String)
    (mgr : DashboardScenePageStateManager) (hb : backend.home = .redirect uri) :
    ((loadDashboard t backend "" .Home mgr).1.state.dashboard = none) ∧
    ((loadDashboard t backend "" .Home mgr).1.state.loadError = none) := by
  simp [loadDashboard, loadDashboardStart, loadDashboardResolve, hb]

/-- Witness for C8: a home load against a backend redirecting to
`/d/asd` leaves both `dashboard` and `loadError` undefined. -/
theorem loadDashboard_home_redirect_witness :
    sampleBackend.home = .redirect "/d/asd" ∧
    ((loadDashboard 0 sampleBackend "" .Home initialManager).1.state.dashboard = none) ∧
    ((loadDashboard 0 sampleBackend "" .Home initialManager).1.state.loadError = none) :=
  ⟨rfl, loadDashboard_home_redirect 0 sampleBackend "/d/asd" initialManager rfl⟩

/-- C9: `getDashboardFromCache` is a pure lookup (it is a function of
the manager alone, performing no backend call and returning no updated
manager): it returns `none` on a missing entry and on an entry whose
TTL has expired; and after `setDashboardCache` it returns the injected
DTO, for every identifier, DTO, time and prior manager. -/
theorem getDashboardFromCache_pure_lookup :
    (∀ now uid mgr, lookupEntry uid mgr.dtoCache = none →
      getDashboardFromCache now uid mgr = none) ∧
    (∀ now uid mgr entry, lookupEntry uid mgr.dtoCache = some entry →
      DASHBOARD_CACHE_TTL ≤ now - entry.fetchedAt →
      getDashboardFromCache now uid mgr = none) ∧
    (∀ now uid dto mgr,
      getDashboardFromCache now uid (setDashboardCache now uid dto mgr) = some dto) := by
  refine ⟨fun now uid mgr h => ?_, fun now uid mgr entry h h2 => ?_,
    fun now uid dto mgr => ?_⟩
  · simp [getDashboardFromCache, h]
  · simp [getDashboardFromCache, h, Nat.not_lt.mpr h2]
  · simp [getDashboardFromCache, setDashboardCache, lookupEntry, DASHBOARD_CACHE_TTL]

/-- Witness for C9: a miss returns `none`; an entry injected at time 0
is expired at time 2000 and returns `none`; an injected DTO is returned
by an immediate lookup. -/
theorem getDashboardFromCache_pure_lookup_witness :
    (lookupEntry "x" initialManager.dtoCache = none ∧
      getDashboardFromCache 0 "x" initialManager = none) ∧
    (lookupEntry "x"
        (setDashboardCache 0 "x" sampleResourceDTO initialManager).dtoCache =
        some ⟨sampleResourceDTO, 0⟩ ∧
      DASHBOARD_CACHE_TTL ≤
        (2000 : Nat) - (⟨sampleResourceDTO, 0⟩ : CacheEntry).fetchedAt ∧
      getDashboardFromCache 2000 "x"
        (setDashboardCache 0 "x" sampleResourceDTO initialManager) = none) ∧
    getDashboardFromCache 7 "x" (setDashboardCache 7 "x" sampleResourceDTO initialManager)
      = some sampleResourceDTO :=
  ⟨⟨rfl, getDashboardFromCache_pure_lookup.1 0 "x" initialManager rfl⟩,
   ⟨rfl, by decide,
    getDashboardFromCache_pure_lookup.2.1 2000 "x"
      (setDashboardCache 0 "x" sampleResourceDTO initialManager)
      ⟨sampleResourceDTO, 0⟩ rfl (by decide)⟩,
   getDashboardFromCache_pure_lookup.2.2 7 "x" sampleResourceDTO initialManager⟩

/-- C10: for every uid, a `Normal`-route `loadDashboard` that misses the
DTO cache invokes the backend fetch exactly once, with store kind
`db`, an empty slug, the given uid, and no query parameters — whatever
the backend answers. -/
theorem loadDashboard_backend_call_shape (uid : String) (backend : Backend) (t : Nat)
    (mgr : DashboardScenePageStateManager)
    (hmiss : lookupEntry uid mgr.dtoCache = none) :
    (loadDashboard t backend uid .Normal mgr).2 =
      [{ storeKind := "db", slug := "", uid := uid, queryParams := none }] := by
  cases hb : backend.fetchDash uid <;>
    simp [loadDashboard, loadDashboardStart, loadDashboardResolve, fetchDashboard,
      fetchFromBackend, hmiss, hb]

/-- Witness for C10: a fresh manager loading `fake-dash` issues exactly
the call `("db", "", "fake-dash", undefined)`. -/
theorem loadDashboard_backend_call_shape_witness :
    lookupEntry "fake-dash" initialManager.dtoCache = none ∧
    (loadDashboard 0 sampleBackend "fake-dash" .Normal initialManager).2 =
      [{ storeKind := "db", slug := "", uid := "fake-dash", queryParams := none }] :=
  ⟨rfl, loadDashboard_backend_call_shape "fake-dash" sampleBackend 0 initialManager rfl⟩
